import Mathlib

/-!
Shallow embedding of the conversation client in
src/widget/src/SupportWidget.tsx (the sendMessage callback and the React
state it manipulates), together with theorems about its behaviour.

Modelling notes.

The component state is the five useState cells that sendMessage touches:
messages, inputValue, isLoading, conversationId, error.  A sendMessage
invocation is modelled as a function from the render snapshot it captured
(the useState values in the useCallback closure), the input text, and the
outcome of the single fetch it performs, to the state after all enqueued
setter updates have been flushed, paired with the list of network requests
it issued.  The updates enqueued before a thrown exception (for example a
setConversationId enqueued before a TypeError on data.response.content)
still flush, which the model reproduces by applying them in program order.

JavaScript details carried over faithfully:
  * string truthiness: undefined, null and the empty string are falsy,
    every other string is truthy (strTruthy);
  * String.prototype.trim removes leading and trailing whitespace (jsTrim);
  * data.response.content throws a TypeError exactly when data.response is
    absent or null (modelled by RespBody.response being none); when
    data.response is an object missing the content field the access yields
    undefined (ReplyObj.content is an Option, none standing for undefined);
  * a response body that is not valid JSON, or parses to null or another
    non-object (so that the first property access throws), is folded into
    the body-equals-none outcome: observably it sets the error message and
    changes nothing else, exactly like a JSON parse failure.
-/

namespace SupportWidget

/-- JavaScript truthiness of a possibly-absent string: undefined, null and
the empty string are falsy, all other strings are truthy. -/
def strTruthy : Option String → Bool
  | none => false
  | some s => s ≠ ""

/-- Embedding of JavaScript String.prototype.trim: drop leading and trailing
whitespace characters. -/
def jsTrim (s : String) : String :=
  ⟨((s.data.dropWhile Char.isWhitespace).reverse.dropWhile Char.isWhitespace).reverse⟩

/-- role field of a Message: the union type in the Message interface. -/
inductive Role
  | user
  | assistant
deriving DecidableEq, Repr

/-- One transcript entry, the Message interface.  content is an Option
because the code can store a JavaScript undefined there (a reply object
missing its content field); user messages always carry some string. -/
structure Message where
  id : String
  role : Role
  content : Option String
  timestamp : Nat
deriving DecidableEq, Repr

/-- The useState cells of the component that sendMessage reads or writes.
isOpen is omitted: sendMessage never touches it. -/
structure WidgetState where
  messages : List Message
  inputValue : String
  isLoading : Bool
  conversationId : Option String
  error : Option String
deriving DecidableEq, Repr

/-- The initial state of a freshly mounted widget. -/
def initialState : WidgetState :=
  { messages := [], inputValue := "", isLoading := false,
    conversationId := none, error := none }

/-- JSON body of an outbound request: either the create-conversation shape
or the continue-conversation shape. -/
inductive ReqBody
  | createBody (channel initial_message page_url : String)
  | continueBody (content : String)
deriving DecidableEq, Repr

/-- The message text a request body carries: initial_message for a create
body, content for a continue body. -/
def ReqBody.carriedContent : ReqBody → String
  | .createBody _ m _ => m
  | .continueBody m => m

/-- An outbound HTTP request as the code assembles it. -/
structure Request where
  url : String
  method : String
  body : ReqBody
deriving DecidableEq, Repr

/-- The nested reply object of a response body; content is none when the
content field is missing (a JavaScript undefined). -/
structure ReplyObj where
  content : Option String
deriving DecidableEq, Repr

/-- A parsed 2xx response body, as far as the code inspects it:
conversation_id and message_id are none when absent; response is none when
the response field is absent or null, so that accessing .content on it
throws a TypeError. -/
structure RespBody where
  conversation_id : Option String
  message_id : Option String
  response : Option ReplyObj
deriving DecidableEq, Repr

/-- Outcome of the one fetch an invocation performs: the promise rejects
(network failure), or a response arrives with ok status flag and a body;
body none stands for a body whose JSON parse fails or whose parse result is
not an object, so that the code lands in the catch block without reading
any field. -/
inductive FetchOutcome
  | networkError
  | httpResponse (ok : Bool) (body : Option RespBody)
deriving DecidableEq, Repr

/-- The parsed object body of an outcome, when there is one. -/
def FetchOutcome.bodyOf : FetchOutcome → Option RespBody
  | .networkError => none
  | .httpResponse _ b => b

/-- The constant user-facing error message the catch block installs. -/
def failMsg : String := "Failed to send message. Please try again."

/-- The validation guard at the top of sendMessage:
if (!content.trim() || isLoading) return. -/
def guardRejects (s : WidgetState) (content : String) : Bool :=
  jsTrim content == "" || s.isLoading

/-- The request the try block assembles: branch on the truthiness of the
captured conversationId exactly as if (!conversationId) does. -/
def buildRequest (apiUrl pageUrl : String) (s : WidgetState) (content : String) :
    Request :=
  if !(strTruthy s.conversationId) then
    { url := apiUrl ++ "/api/v1/conversations", method := "POST",
      body := .createBody "widget" (jsTrim content) pageUrl }
  else
    { url := apiUrl ++ "/api/v1/conversations/" ++ s.conversationId.getD ""
               ++ "/messages",
      method := "POST", body := .continueBody (jsTrim content) }

/-- The requests one invocation issues, decided entirely in the synchronous
phase before the first await: none when the guard rejects, exactly the one
built request otherwise. -/
def issuedRequests (apiUrl pageUrl : String) (s : WidgetState) (content : String) :
    List Request :=
  if guardRejects s content then [] else [buildRequest apiUrl pageUrl s content]

/-- The optimistic user message appended before the request is issued;
now is the Date.now() value at that moment. -/
def optimisticMessage (now : Nat) (content : String) : Message :=
  { id := "user-" ++ toString now, role := .user,
    content := some (jsTrim content), timestamp := now }

/-- State after the synchronous phase of a validated invocation:
setError(null), setIsLoading(true), the optimistic append, and
setInputValue of the empty string, in program order. -/
def afterSyncPhase (now : Nat) (s : WidgetState) (content : String) : WidgetState :=
  { s with error := none, isLoading := true,
           messages := s.messages ++ [optimisticMessage now content],
           inputValue := "" }

/-- The assistant message the success path constructs: server message id if
truthy, else a local fallback; content taken verbatim from the reply
object. -/
def assistantMessage (now2 : Nat) (data : RespBody) (reply : ReplyObj) : Message :=
  { id := if strTruthy data.message_id then data.message_id.getD ""
          else "assistant-" ++ toString now2,
    role := .assistant, content := reply.content, timestamp := now2 }

/-- Applying the fetch outcome to the post-sync state s2: the response.ok
check, the json parse, the conditional setConversationId, the
data.response.content access (a TypeError when response is absent or null,
caught below), the assistant append, and the catch block installing
failMsg on every thrown path.  Updates enqueued before a throw (the
setConversationId) survive, as they do in React. -/
def applyResponse (now2 : Nat) (s2 : WidgetState) (outcome : FetchOutcome) :
    WidgetState :=
  match outcome with
  | .networkError => { s2 with error := some failMsg }
  | .httpResponse ok body =>
    if !ok then { s2 with error := some failMsg }
    else
      match body with
      | none => { s2 with error := some failMsg }
      | some data =>
        let s2a : WidgetState :=
          if strTruthy data.conversation_id then
            { s2 with conversationId := data.conversation_id }
          else s2
        match data.response with
        | none => { s2a with error := some failMsg }
        | some reply =>
          { s2a with messages := s2a.messages ++ [assistantMessage now2 data reply] }

/-- One complete sendMessage invocation: from the captured render snapshot s,
the input text, and the fetch outcome, to the state after all enqueued
updates flush, paired with the issued requests.  now is Date.now() at the
optimistic append, now2 at the assistant append; the final record update
is the finally block setIsLoading(false). -/
def sendMessage (apiUrl pageUrl : String) (now now2 : Nat) (s : WidgetState)
    (content : String) (outcome : FetchOutcome) : WidgetState × List Request :=
  if guardRejects s content then (s, [])
  else
    ({ applyResponse now2 (afterSyncPhase now s content) outcome with
         isLoading := false },
     [buildRequest apiUrl pageUrl s content])

/-- Two sendMessage calls fired synchronously back-to-back.  Both run against
the same render snapshot: the useCallback closure captures the isLoading
value of the render that created it, and setIsLoading(true) enqueued by
the first call is only applied at the next render, after the synchronous
block has completed; the caller holds one function reference for both
calls, so the guard of the second call reads the same stale snapshot.  The
value is the total number of network requests the two calls issue. -/
def syncBackToBackRequestCount (apiUrl pageUrl : String) (s : WidgetState)
    (text : String) : Nat :=
  (issuedRequests apiUrl pageUrl s text).length
    + (issuedRequests apiUrl pageUrl s text).length

/-- A user-role message is well-formed when its content is a present,
non-empty string without surrounding whitespace. -/
def userContentOk (m : Message) : Prop :=
  m.role = .user → ∃ c, m.content = some c ∧ c ≠ "" ∧ jsTrim c = c

/-- An outcome the catch block converts into the error state: a rejected
fetch, a non-2xx status, an unreadable body, or an object body whose
response field is absent or null. -/
def isFailureOutcome : FetchOutcome → Bool
  | .networkError => true
  | .httpResponse ok body =>
      !ok || (match body with
              | none => true
              | some d => d.response.isNone)

/-! Helper lemmas. -/

/-- dropWhile is idempotent: the head of its result, if any, fails p. -/
theorem dropWhile_self {α : Type} (p : α → Bool) (l : List α) :
    (l.dropWhile p).dropWhile p = l.dropWhile p := by
  cases hd : l.dropWhile p with
  | nil => rfl
  | cons a t =>
    have h := List.head?_dropWhile_not p l
    rw [hd] at h
    simp only [List.head?] at h
    rw [List.dropWhile_cons, h]
    simp

/-- A list whose left trim is itself keeps that property after the right
trim (dropping a trailing whitespace block). -/
theorem dropWhile_of_rightTrim {α : Type} (p : α → Bool) (y : List α)
    (hy : y.dropWhile p = y) :
    ((y.reverse.dropWhile p).reverse).dropWhile p = (y.reverse.dropWhile p).reverse := by
  cases y with
  | nil => rfl
  | cons a t =>
    have hpa : p a = false := by
      rw [List.dropWhile_eq_self_iff] at hy
      have := hy (by simp)
      simpa using this
    rw [List.reverse_cons, List.dropWhile_append]
    by_cases he : (t.reverse.dropWhile p).isEmpty = true
    · simp [he, List.dropWhile_cons, hpa]
    · rw [if_neg he, List.reverse_append]
      simp [List.dropWhile_cons, hpa]

/-- jsTrim is idempotent: trimmed text has no surrounding whitespace. -/
theorem jsTrim_jsTrim (s : String) : jsTrim (jsTrim s) = jsTrim s := by
  unfold jsTrim
  have h1 : (s.data.dropWhile Char.isWhitespace).dropWhile Char.isWhitespace
      = s.data.dropWhile Char.isWhitespace := dropWhile_self _ _
  have h2 := dropWhile_of_rightTrim Char.isWhitespace
    (s.data.dropWhile Char.isWhitespace) h1
  show (⟨_⟩ : String) = ⟨_⟩
  congr 1
  rw [String.data]
  rw [h2, List.reverse_reverse]
  rw [dropWhile_self]

/-- The guard passes when the trimmed text is non-empty and no send is
pending. -/
theorem guardRejects_eq_false {s : WidgetState} {t : String}
    (hv : jsTrim t ≠ "") (hp : s.isLoading = false) :
    guardRejects s t = false := by
  simp [guardRejects, hp, hv]

/-- Outcome shapes of applyResponse: a rejected fetch. -/
theorem applyResponse_networkError (now2 : Nat) (s2 : WidgetState) :
    applyResponse now2 s2 FetchOutcome.networkError
      = { s2 with error := some failMsg } := rfl

/-- Outcome shapes of applyResponse: a non-2xx status, any body. -/
theorem applyResponse_notOk (now2 : Nat) (s2 : WidgetState)
    (body : Option RespBody) :
    applyResponse now2 s2 (FetchOutcome.httpResponse false body)
      = { s2 with error := some failMsg } := rfl

/-- Outcome shapes of applyResponse: a 2xx response with an unreadable
body. -/
theorem applyResponse_badJson (now2 : Nat) (s2 : WidgetState) :
    applyResponse now2 s2 (FetchOutcome.httpResponse true none)
      = { s2 with error := some failMsg } := rfl

/-- Outcome shapes of applyResponse: a 2xx object body with a truthy
conversation_id but no reply object: the id is recorded, then the access
throws and the error is installed. -/
theorem applyResponse_missingReply_truthy (now2 : Nat) (s2 : WidgetState)
    (data : RespBody) (hr : data.response = none)
    (ht : strTruthy data.conversation_id = true) :
    applyResponse now2 s2 (FetchOutcome.httpResponse true (some data))
      = { s2 with conversationId := data.conversation_id,
                  error := some failMsg } := by
  simp [applyResponse, hr, ht]

/-- Outcome shapes of applyResponse: a 2xx object body with a falsy
conversation_id and no reply object. -/
theorem applyResponse_missingReply_falsy (now2 : Nat) (s2 : WidgetState)
    (data : RespBody) (hr : data.response = none)
    (ht : strTruthy data.conversation_id = false) :
    applyResponse now2 s2 (FetchOutcome.httpResponse true (some data))
      = { s2 with error := some failMsg } := by
  simp [applyResponse, hr, ht]

/-- Outcome shapes of applyResponse: a 2xx object body with a truthy
conversation_id and a reply object: record the id, append the assistant
message. -/
theorem applyResponse_reply_truthy (now2 : Nat) (s2 : WidgetState)
    (data : RespBody) (reply : ReplyObj) (hr : data.response = some reply)
    (ht : strTruthy data.conversation_id = true) :
    applyResponse now2 s2 (FetchOutcome.httpResponse true (some data))
      = { s2 with conversationId := data.conversation_id,
                  messages := s2.messages ++ [assistantMessage now2 data reply] } := by
  simp [applyResponse, hr, ht]

/-- Outcome shapes of applyResponse: a 2xx object body with a falsy
conversation_id and a reply object: append the assistant message only. -/
theorem applyResponse_reply_falsy (now2 : Nat) (s2 : WidgetState)
    (data : RespBody) (reply : ReplyObj) (hr : data.response = some reply)
    (ht : strTruthy data.conversation_id = false) :
    applyResponse now2 s2 (FetchOutcome.httpResponse true (some data))
      = { s2 with messages := s2.messages ++ [assistantMessage now2 data reply] } := by
  simp [applyResponse, hr, ht]

/-- A rejected guard makes the whole invocation a no-op. -/
theorem sendMessage_of_guard {apiUrl pageUrl : String} {now now2 : Nat}
    {s : WidgetState} {text : String} (outcome : FetchOutcome)
    (hg : guardRejects s text = true) :
    sendMessage apiUrl pageUrl now now2 s text outcome = (s, []) := by
  unfold sendMessage
  rw [hg]
  simp

/-- A passing guard runs the full request cycle. -/
theorem sendMessage_of_guard_false {apiUrl pageUrl : String} {now now2 : Nat}
    {s : WidgetState} {text : String} (outcome : FetchOutcome)
    (hg : guardRejects s text = false) :
    sendMessage apiUrl pageUrl now now2 s text outcome =
      ({ applyResponse now2 (afterSyncPhase now s text) outcome with
           isLoading := false },
       [buildRequest apiUrl pageUrl s text]) := by
  unfold sendMessage
  rw [hg]
  simp

/-! Claim theorems. -/

/-- Claim C8: for every input whose trimmed text is empty and for every
invocation made while a send is pending, sendMessage leaves the state
unchanged, sets no error, and issues no request. -/
theorem C8_validation_noop (apiUrl pageUrl : String) (now now2 : Nat)
    (s : WidgetState) (text : String) (outcome : FetchOutcome)
    (h : jsTrim text = "" ∨ s.isLoading = true) :
    sendMessage apiUrl pageUrl now now2 s text outcome = (s, []) := by
  have hg : guardRejects s text = true := by
    rcases h with h | h <;> simp [guardRejects, h]
  exact sendMessage_of_guard outcome hg

/-- Claim C8 witness: a whitespace-only input on a fresh widget is a
complete no-op. -/
theorem C8_validation_noop_witness :
    sendMessage "https://api.example.com" "https://shop.example.com" 1 2
      initialState "   " FetchOutcome.networkError = (initialState, []) :=
  C8_validation_noop _ _ _ _ _ _ _ (Or.inl (by decide))

/-- Claim C5: a validated send issues exactly one request: when no
conversation id is recorded, the create request (POST to the conversations
collection; body channel, initial_message, context page url), and when a
(non-empty, hence truthy) id is recorded, the continue request (POST
addressed to that id; body content); never both in one call. -/
theorem C5_routing (apiUrl pageUrl : String) (s : WidgetState) (text : String)
    (hv : jsTrim text ≠ "") (hp : s.isLoading = false) :
    (s.conversationId = none →
      issuedRequests apiUrl pageUrl s text =
        [{ url := apiUrl ++ "/api/v1/conversations", method := "POST",
           body := ReqBody.createBody "widget" (jsTrim text) pageUrl }]) ∧
    ∀ c : String, s.conversationId = some c → c ≠ "" →
      issuedRequests apiUrl pageUrl s text =
        [{ url := apiUrl ++ "/api/v1/conversations/" ++ c ++ "/messages",
           method := "POST", body := ReqBody.continueBody (jsTrim text) }] := by
  unfold issuedRequests
  rw [guardRejects_eq_false hv hp]
  constructor
  · intro hc
    simp [buildRequest, strTruthy, hc]
  · intro c hc hcne
    simp [buildRequest, strTruthy, hc, hcne]

/-- Claim C5 witness: a fresh session routes to create, a session holding
the id c1 routes to continue addressed to c1. -/
theorem C5_routing_witness :
    issuedRequests "https://api.example.com" "https://shop.example.com/cart"
        initialState "hi" =
      [{ url := "https://api.example.com/api/v1/conversations", method := "POST",
         body := ReqBody.createBody "widget" "hi" "https://shop.example.com/cart" }] ∧
    issuedRequests "https://api.example.com" "https://shop.example.com/cart"
        { initialState with conversationId := some "c1" } "hi" =
      [{ url := "https://api.example.com/api/v1/conversations/c1/messages",
         method := "POST", body := ReqBody.continueBody "hi" }] :=
  ⟨(C5_routing "https://api.example.com" "https://shop.example.com/cart"
      initialState "hi" (by decide) rfl).1 rfl,
   (C5_routing "https://api.example.com" "https://shop.example.com/cart"
      { initialState with conversationId := some "c1" } "hi" (by decide) rfl).2
      "c1" rfl (by decide)⟩

/-- Claim C6: every completed invocation ends with pending false; the only
invocations whose final pending is not forced false are the validation
no-ops fired while another send holds the flag, and those change nothing
and issue nothing. -/
theorem C6_pending_release (apiUrl pageUrl : String) (now now2 : Nat)
    (s : WidgetState) (text : String) (outcome : FetchOutcome) :
    (sendMessage apiUrl pageUrl now now2 s text outcome).1.isLoading = false ∨
    (s.isLoading = true ∧
      sendMessage apiUrl pageUrl now now2 s text outcome = (s, [])) := by
  by_cases hg : guardRejects s text = true
  · have he : sendMessage apiUrl pageUrl now now2 s text outcome = (s, []) :=
      sendMessage_of_guard outcome hg
    by_cases hl : s.isLoading = true
    · exact Or.inr ⟨hl, he⟩
    · left
      rw [he]
      simpa using hl
  · left
    have hg2 : guardRejects s text = false := by simpa using hg
    rw [sendMessage_of_guard_false outcome hg2]

/-- Claim C1 (code bug): two sendMessage calls fired synchronously
back-to-back against a fresh widget issue two create requests, not one.
Both guard checks read the isLoading value captured by the render closure;
the setIsLoading true enqueued by the first call only takes effect at the
next render, after the synchronous block, so it cannot stop the second
call. -/
theorem C1_sync_double_call_two_requests :
    syncBackToBackRequestCount "https://api.example.com"
      "https://shop.example.com/product" initialState "hello" = 2 := by
  decide

/-- Claim C2 (code bug): a 2xx create response carrying a reply but no
conversation_id is accepted as a success: no error is set, the assistant
reply is appended, and the session is left without an id, so the next send
routes as create again. -/
theorem C2_missing_id_silently_accepted :
    ((sendMessage "https://api.example.com" "https://shop.example.com" 1 2
        initialState "Hi"
        (FetchOutcome.httpResponse true
          (some { conversation_id := none, message_id := none,
                  response := some { content := some "Hello" } }))).1.error
        = none) ∧
    ((sendMessage "https://api.example.com" "https://shop.example.com" 1 2
        initialState "Hi"
        (FetchOutcome.httpResponse true
          (some { conversation_id := none, message_id := none,
                  response := some { content := some "Hello" } }))).1.conversationId
        = none) ∧
    ((sendMessage "https://api.example.com" "https://shop.example.com" 1 2
        initialState "Hi"
        (FetchOutcome.httpResponse true
          (some { conversation_id := none, message_id := none,
                  response := some { content := some "Hello" } }))).1.messages.length
        = 2) := by
  refine ⟨?_, ?_, ?_⟩ <;> decide

/-- Claim C3 counterexample: with the id c1 recorded, a 2xx continue
response whose body carries conversation_id c2 overwrites the recorded id,
so a send does change an already-set conversationId. -/
theorem C3_overwrite_counterexample :
    ((sendMessage "https://api.example.com" "https://shop.example.com" 1 2
        { initialState with conversationId := some "c1" } "Hi"
        (FetchOutcome.httpResponse true
          (some { conversation_id := some "c2", message_id := none,
                  response := some { content := some "ok" } }))).1).conversationId
      = some "c2" := by
  decide

/-- Claim C3 amended: once conversationId is set, no send changes it
provided every response body that carries a truthy conversation_id carries
the recorded one (the server obligation of section 6); in particular every
failed send and every response without a conversation_id leaves it
unchanged. -/
theorem C3_id_immutable_amended (apiUrl pageUrl : String) (now now2 : Nat)
    (s : WidgetState) (text : String) (outcome : FetchOutcome) (c : String)
    (hc : s.conversationId = some c)
    (hcomp : ∀ d : RespBody, outcome.bodyOf = some d →
      strTruthy d.conversation_id = true → d.conversation_id = some c) :
    ((sendMessage apiUrl pageUrl now now2 s text outcome).1).conversationId
      = some c := by
  by_cases hg : guardRejects s text = true
  · rw [sendMessage_of_guard outcome hg]
    exact hc
  · have hg2 : guardRejects s text = false := by simpa using hg
    rw [sendMessage_of_guard_false outcome hg2]
    show (applyResponse now2 (afterSyncPhase now s text) outcome).conversationId
      = some c
    cases outcome with
    | networkError => simpa [applyResponse, afterSyncPhase] using hc
    | httpResponse ok body =>
      cases ok with
      | false => simpa [applyResponse, afterSyncPhase] using hc
      | true =>
        cases body with
        | none => simpa [applyResponse, afterSyncPhase] using hc
        | some data =>
          by_cases ht : strTruthy data.conversation_id = true
          · have hdc : data.conversation_id = some c :=
              hcomp data rfl ht
            cases hr : data.response with
            | none =>
              simp only [applyResponse, afterSyncPhase, hdc, hr]
              split <;> simp [hc]
            | some reply =>
              simp only [applyResponse, afterSyncPhase, hdc, hr]
              split <;> simp [hc]
          · have ht2 : strTruthy data.conversation_id = false := by
              simpa using ht
            cases hr : data.response with
            | none => simpa [applyResponse, afterSyncPhase, ht2, hr] using hc
            | some reply => simpa [applyResponse, afterSyncPhase, ht2, hr] using hc

/-- Claim C3 amended witness: a compliant continue response repeating the
id c1 leaves conversationId at c1. -/
theorem C3_id_immutable_amended_witness :
    ((sendMessage "https://api.example.com" "https://shop.example.com" 1 2
        { initialState with conversationId := some "c1" } "Hi"
        (FetchOutcome.httpResponse true
          (some { conversation_id := some "c1", message_id := none,
                  response := some { content := some "ok" } }))).1).conversationId
      = some "c1" :=
  C3_id_immutable_amended "https://api.example.com" "https://shop.example.com"
    1 2 { initialState with conversationId := some "c1" } "Hi"
    (FetchOutcome.httpResponse true
      (some { conversation_id := some "c1", message_id := none,
              response := some { content := some "ok" } }))
    "c1" rfl
    (by
      intro d hd ht
      simp only [FetchOutcome.bodyOf, Option.some.injEq] at hd
      rw [← hd])

/-- Both request shapes carry the trimmed text as their message field. -/
theorem carriedContent_buildRequest (apiUrl pageUrl : String)
    (s : WidgetState) (t : String) :
    (buildRequest apiUrl pageUrl s t).body.carriedContent = jsTrim t := by
  unfold buildRequest
  split <;> rfl

/-- Applying any outcome either leaves the message log alone or appends
exactly one assistant message taken from the reply object. -/
theorem applyResponse_messages (now2 : Nat) (s2 : WidgetState)
    (outcome : FetchOutcome) :
    (applyResponse now2 s2 outcome).messages = s2.messages ∨
    ∃ data reply, outcome = FetchOutcome.httpResponse true (some data) ∧
      data.response = some reply ∧
      (applyResponse now2 s2 outcome).messages
        = s2.messages ++ [assistantMessage now2 data reply] := by
  cases outcome with
  | networkError => exact Or.inl rfl
  | httpResponse ok body =>
    cases ok with
    | false => exact Or.inl rfl
    | true =>
      cases body with
      | none => exact Or.inl rfl
      | some data =>
        cases hr : data.response with
        | none =>
          left
          by_cases ht : strTruthy data.conversation_id = true
          · rw [applyResponse_missingReply_truthy now2 s2 data hr ht]
          · rw [applyResponse_missingReply_falsy now2 s2 data hr
              (by simpa using ht)]
        | some reply =>
          right
          refine ⟨data, reply, rfl, hr, ?_⟩
          by_cases ht : strTruthy data.conversation_id = true
          · rw [applyResponse_reply_truthy now2 s2 data reply hr ht]
          · rw [applyResponse_reply_falsy now2 s2 data reply hr
              (by simpa using ht)]

/-- Claim C4 counterexample: a 2xx body that carries a conversation_id but
no reply object takes the failure path (lastError set) and still changes
conversationId from absent to that id, because setConversationId ran
before the TypeError on the missing reply. -/
theorem C4_cid_changed_on_failure_counterexample :
    ((sendMessage "https://api.example.com" "https://shop.example.com" 1 2
        initialState "Hi"
        (FetchOutcome.httpResponse true
          (some { conversation_id := some "c1", message_id := none,
                  response := none }))).1.error = some failMsg) ∧
    ((sendMessage "https://api.example.com" "https://shop.example.com" 1 2
        initialState "Hi"
        (FetchOutcome.httpResponse true
          (some { conversation_id := some "c1", message_id := none,
                  response := none }))).1.conversationId = some "c1") ∧
    initialState.conversationId = none := by
  refine ⟨?_, ?_, ?_⟩ <;> decide

/-- Claim C4 amended: on every failing invocation lastError is set and the
message log is the old log plus the optimistic user message, which is
never removed; conversationId is unchanged, except that a 2xx object body
carrying a truthy conversation_id but no reply object records that id
before the failure is detected. -/
theorem C4_failure_atomicity_amended (apiUrl pageUrl : String) (now now2 : Nat)
    (s : WidgetState) (text : String) (outcome : FetchOutcome)
    (hv : jsTrim text ≠ "") (hp : s.isLoading = false)
    (hf : isFailureOutcome outcome = true) :
    (sendMessage apiUrl pageUrl now now2 s text outcome).1.error = some failMsg ∧
    (sendMessage apiUrl pageUrl now now2 s text outcome).1.messages
      = s.messages ++ [optimisticMessage now text] ∧
    ((sendMessage apiUrl pageUrl now now2 s text outcome).1.conversationId
        = s.conversationId ∨
      ∃ d : RespBody, outcome = FetchOutcome.httpResponse true (some d) ∧
        d.response = none ∧ strTruthy d.conversation_id = true ∧
        (sendMessage apiUrl pageUrl now now2 s text outcome).1.conversationId
          = d.conversation_id) := by
  have hg : guardRejects s text = false := guardRejects_eq_false hv hp
  rw [sendMessage_of_guard_false outcome hg]
  cases outcome with
  | networkError =>
    rw [applyResponse_networkError]
    exact ⟨rfl, rfl, Or.inl rfl⟩
  | httpResponse ok body =>
    cases ok with
    | false =>
      rw [applyResponse_notOk]
      exact ⟨rfl, rfl, Or.inl rfl⟩
    | true =>
      cases body with
      | none =>
        rw [applyResponse_badJson]
        exact ⟨rfl, rfl, Or.inl rfl⟩
      | some data =>
        have hr : data.response = none := by
          simpa [isFailureOutcome, Option.isNone_iff_eq_none] using hf
        by_cases ht : strTruthy data.conversation_id = true
        · rw [applyResponse_missingReply_truthy _ _ data hr ht]
          exact ⟨rfl, rfl, Or.inr ⟨data, rfl, hr, ht, rfl⟩⟩
        · rw [applyResponse_missingReply_falsy _ _ data hr (by simpa using ht)]
          exact ⟨rfl, rfl, Or.inl rfl⟩

/-- Claim C4 amended witness: a network failure on a fresh send sets the
error, keeps the optimistic message, and leaves the id absent. -/
theorem C4_failure_atomicity_amended_witness :
    (sendMessage "https://api.example.com" "https://shop.example.com" 1 2
        initialState "Hi" FetchOutcome.networkError).1.error = some failMsg ∧
    (sendMessage "https://api.example.com" "https://shop.example.com" 1 2
        initialState "Hi" FetchOutcome.networkError).1.messages
      = initialState.messages ++ [optimisticMessage 1 "Hi"] ∧
    ((sendMessage "https://api.example.com" "https://shop.example.com" 1 2
        initialState "Hi" FetchOutcome.networkError).1.conversationId
        = initialState.conversationId ∨
      ∃ d : RespBody, FetchOutcome.networkError
          = FetchOutcome.httpResponse true (some d) ∧
        d.response = none ∧ strTruthy d.conversation_id = true ∧
        (sendMessage "https://api.example.com" "https://shop.example.com" 1 2
            initialState "Hi" FetchOutcome.networkError).1.conversationId
          = d.conversation_id) :=
  C4_failure_atomicity_amended "https://api.example.com"
    "https://shop.example.com" 1 2 initialState "Hi" FetchOutcome.networkError
    (by decide) rfl rfl

/-- Claim C7: on a validated send, a rejected fetch, any non-2xx response
whatever its body, an unreadable 2xx body, and a 2xx object body whose
reply field is absent all set lastError to the same generic constant
message, which carries no information about the underlying cause. -/
theorem C7_failure_surfacing (apiUrl pageUrl : String) (now now2 : Nat)
    (s : WidgetState) (text : String)
    (hv : jsTrim text ≠ "") (hp : s.isLoading = false) :
    (sendMessage apiUrl pageUrl now now2 s text
        FetchOutcome.networkError).1.error = some failMsg ∧
    (∀ body : Option RespBody,
      (sendMessage apiUrl pageUrl now now2 s text
          (FetchOutcome.httpResponse false body)).1.error = some failMsg) ∧
    (sendMessage apiUrl pageUrl now now2 s text
        (FetchOutcome.httpResponse true none)).1.error = some failMsg ∧
    (∀ data : RespBody, data.response = none →
      (sendMessage apiUrl pageUrl now now2 s text
          (FetchOutcome.httpResponse true (some data))).1.error = some failMsg) := by
  have hg : guardRejects s text = false := guardRejects_eq_false hv hp
  refine ⟨?_, ?_, ?_, ?_⟩
  · rw [sendMessage_of_guard_false _ hg, applyResponse_networkError]
  · intro body
    rw [sendMessage_of_guard_false _ hg, applyResponse_notOk]
  · rw [sendMessage_of_guard_false _ hg, applyResponse_badJson]
  · intro data hr
    rw [sendMessage_of_guard_false _ hg]
    by_cases ht : strTruthy data.conversation_id = true
    · rw [applyResponse_missingReply_truthy _ _ data hr ht]
    · rw [applyResponse_missingReply_falsy _ _ data hr (by simpa using ht)]

/-- Claim C7 witness: a non-2xx response and a 2xx body without a reply
field surface the identical generic message. -/
theorem C7_failure_surfacing_witness :
    (sendMessage "https://api.example.com" "https://shop.example.com" 1 2
        initialState "Hi" (FetchOutcome.httpResponse false none)).1.error
      = some failMsg ∧
    (sendMessage "https://api.example.com" "https://shop.example.com" 1 2
        initialState "Hi"
        (FetchOutcome.httpResponse true
          (some { conversation_id := none, message_id := none,
                  response := none }))).1.error = some failMsg :=
  ⟨(C7_failure_surfacing "https://api.example.com" "https://shop.example.com"
      1 2 initialState "Hi" (by decide) rfl).2.1 none,
   (C7_failure_surfacing "https://api.example.com" "https://shop.example.com"
      1 2 initialState "Hi" (by decide) rfl).2.2.2
      { conversation_id := none, message_id := none, response := none } rfl⟩

/-- Claim C9: on every validated send, the optimistic user message and the
request body both carry exactly the trimmed input; the trimmed input is
non-empty and already trimmed, and consequently a transcript whose
user-role messages all have non-empty content without surrounding
whitespace keeps that property across the invocation. -/
theorem C9_trimming (apiUrl pageUrl : String) (now now2 : Nat)
    (s : WidgetState) (text : String) (outcome : FetchOutcome)
    (hv : jsTrim text ≠ "") (hp : s.isLoading = false) :
    (optimisticMessage now text).content = some (jsTrim text) ∧
    (∀ r ∈ issuedRequests apiUrl pageUrl s text,
       r.body.carriedContent = jsTrim text) ∧
    jsTrim (jsTrim text) = jsTrim text ∧
    ((∀ m ∈ s.messages, userContentOk m) →
      ∀ m ∈ (sendMessage apiUrl pageUrl now now2 s text outcome).1.messages,
        userContentOk m) := by
  have hg : guardRejects s text = false := guardRejects_eq_false hv hp
  refine ⟨rfl, ?_, jsTrim_jsTrim text, ?_⟩
  · intro r hr
    unfold issuedRequests at hr
    rw [hg] at hr
    simp only [Bool.false_eq_true, if_false, List.mem_singleton] at hr
    rw [hr]
    exact carriedContent_buildRequest apiUrl pageUrl s text
  · intro hall m hm
    rw [sendMessage_of_guard_false outcome hg] at hm
    have hopt : userContentOk (optimisticMessage now text) := by
      intro _
      exact ⟨jsTrim text, rfl, hv, jsTrim_jsTrim text⟩
    have hm2 : m ∈ (applyResponse now2 (afterSyncPhase now s text) outcome).messages :=
      hm
    have hmsgs := applyResponse_messages now2 (afterSyncPhase now s text) outcome
    rcases hmsgs with hmsgs | ⟨data, reply, _, _, hmsgs⟩
    · rw [hmsgs] at hm2
      have : m ∈ s.messages ++ [optimisticMessage now text] := hm2
      rcases List.mem_append.mp this with h | h
      · exact hall m h
      · rw [List.mem_singleton.mp h]
        exact hopt
    · rw [hmsgs] at hm2
      have : m ∈ (s.messages ++ [optimisticMessage now text])
          ++ [assistantMessage now2 data reply] := hm2
      rcases List.mem_append.mp this with h | h
      · rcases List.mem_append.mp h with h2 | h2
        · exact hall m h2
        · rw [List.mem_singleton.mp h2]
          exact hopt
      · rw [List.mem_singleton.mp h]
        intro hrole
        cases hrole

/-- Claim C9 witness: sending a padded text stores and transmits the
trimmed text, and the resulting transcript is well-formed. -/
theorem C9_trimming_witness :
    (optimisticMessage 1 "  Hi  ").content = some (jsTrim "  Hi  ") ∧
    (∀ r ∈ issuedRequests "https://api.example.com" "https://shop.example.com"
        initialState "  Hi  ", r.body.carriedContent = jsTrim "  Hi  ") ∧
    jsTrim (jsTrim "  Hi  ") = jsTrim "  Hi  " ∧
    ((∀ m ∈ initialState.messages, userContentOk m) →
      ∀ m ∈ (sendMessage "https://api.example.com" "https://shop.example.com"
          1 2 initialState "  Hi  " FetchOutcome.networkError).1.messages,
        userContentOk m) :=
  C9_trimming "https://api.example.com" "https://shop.example.com" 1 2
    initialState "  Hi  " FetchOutcome.networkError (by decide) rfl

/-- Claim C10: on a successful exchange whose 2xx object body contains a
reply object, the appended assistant message carries the reply object
content field verbatim, with no validation of its shape or non-emptiness;
the transcript becomes the old log plus the optimistic user message plus
that assistant message. -/
theorem C10_assistant_verbatim (apiUrl pageUrl : String) (now now2 : Nat)
    (s : WidgetState) (text : String) (data : RespBody) (reply : ReplyObj)
    (hv : jsTrim text ≠ "") (hp : s.isLoading = false)
    (hr : data.response = some reply) :
    (sendMessage apiUrl pageUrl now now2 s text
        (FetchOutcome.httpResponse true (some data))).1.messages
      = s.messages
          ++ [optimisticMessage now text, assistantMessage now2 data reply] ∧
    (assistantMessage now2 data reply).content = reply.content ∧
    (assistantMessage now2 data reply).role = Role.assistant := by
  have hg : guardRejects s text = false := guardRejects_eq_false hv hp
  rw [sendMessage_of_guard_false _ hg]
  refine ⟨?_, rfl, rfl⟩
  by_cases ht : strTruthy data.conversation_id = true
  · rw [applyResponse_reply_truthy _ _ data reply hr ht]
    simp [afterSyncPhase]
  · rw [applyResponse_reply_falsy _ _ data reply hr (by simpa using ht)]
    simp [afterSyncPhase]

/-- Claim C10 witness: an empty-string reply is appended as an assistant
message with empty content. -/
theorem C10_assistant_verbatim_witness :
    (sendMessage "https://api.example.com" "https://shop.example.com" 1 2
        initialState "Hi"
        (FetchOutcome.httpResponse true
          (some { conversation_id := some "c9", message_id := some "m1",
                  response := some { content := some "" } }))).1.messages
      = initialState.messages
          ++ [optimisticMessage 1 "Hi",
              assistantMessage 2
                { conversation_id := some "c9", message_id := some "m1",
                  response := some { content := some "" } }
                { content := some "" }] ∧
    (assistantMessage 2
        { conversation_id := some "c9", message_id := some "m1",
          response := some { content := some "" } }
        { content := some "" }).content = some "" ∧
    (assistantMessage 2
        { conversation_id := some "c9", message_id := some "m1",
          response := some { content := some "" } }
        { content := some "" }).role = Role.assistant :=
  C10_assistant_verbatim "https://api.example.com" "https://shop.example.com"
    1 2 initialState "Hi"
    { conversation_id := some "c9", message_id := some "m1",
      response := some { content := some "" } }
    { content := some "" } (by decide) rfl rfl

end SupportWidget
